import Mathlib

/-
Shallow embedding of the GskPathBuilder core (src/gsk/gskpathbuilder.c) and
theorems checking the natural-language specification against it.

Conventions of the embedding:
* graphene float coordinates are modelled as elements of a coordinate type α
  (instantiated at ℚ for executable scenarios and at ℝ for the arc math);
* the growable GArrays `ops` and `points` are Lean lists;
* the singly linked `contours` GSList keeps its prepend order;
* a gskpathop encoded relative to the NULL pointer
  (gsk_pathop_encode_index, gskpathbuilder.c:146-151) is a tagged operation
  carrying the integer index of its first point in the point buffer.
-/

/-- Coordinate pair, mirroring graphene_point_t. -/
structure graphene_point_t (α : Type) where
  x : α
  y : α
deriving DecidableEq

/-- Operation tags, mirroring the GskPathOperation enum. -/
inductive GskPathOperation where
  | GSK_PATH_MOVE
  | GSK_PATH_LINE
  | GSK_PATH_QUAD
  | GSK_PATH_CUBIC
  | GSK_PATH_CLOSE
deriving DecidableEq

/-- An encoded path operation: the tag together with the index of the point
(relative to the start of the point buffer) the operation starts at,
mirroring gsk_pathop_encode_index (gskpathbuilder.c:146-151). -/
structure gskpathop where
  op : GskPathOperation
  index : Nat
deriving DecidableEq

/-- Path flags, mirroring the GskPathFlags bitfield: GSK_PATH_FLAT and
GSK_PATH_CLOSED. -/
structure GskPathFlags where
  flat : Bool
  closed : Bool
deriving DecidableEq

/-- An immutable contour as produced by gsk_standard_contour_new: the flags,
the point buffer and the operation buffer at finalization time.  The C call
passes the offset `points->data - NULL` so that the encoded indices resolve
into the stored point list; in the embedding the indices are already
0-based into `points`. -/
structure GskContour (α : Type) where
  flags : GskPathFlags
  points : List (graphene_point_t α)
  ops : List gskpathop
deriving DecidableEq

/-- An immutable path: the ordered list of finished contours
(gsk_path_new_from_contours). -/
structure GskPath (α : Type) where
  contours : List (GskContour α)
deriving DecidableEq

/-- The mutable builder state, mirroring struct _GskPathBuilder
(gskpathbuilder.c:68-78).  `contours` is the (reverse) list of already
recorded contours; `ops`/`points` hold the contour currently being built
(`ops = []` means no current contour). -/
structure GskPathBuilder (α : Type) where
  contours : List (GskContour α)
  flags : GskPathFlags
  current_point : graphene_point_t α
  ops : List gskpathop
  points : List (graphene_point_t α)
deriving DecidableEq

/-- gsk_path_builder_new (gskpathbuilder.c:98-113): empty buffers, zeroed
flags (g_slice_new0) and current point (0,0). -/
def gsk_path_builder_new (α : Type) [Zero α] : GskPathBuilder α :=
  { contours := []
    flags := ⟨false, false⟩
    current_point := ⟨0, 0⟩
    ops := []
    points := [] }

/-- gsk_path_builder_ensure_current (gskpathbuilder.c:153-162): if a contour
is active do nothing; otherwise set the flags to GSK_PATH_FLAT and seed the
buffers with a Move op at the current point. -/
def gsk_path_builder_ensure_current {α : Type} (b : GskPathBuilder α) :
    GskPathBuilder α :=
  if b.ops ≠ [] then b
  else
    { b with
      flags := ⟨true, false⟩
      ops := b.ops ++ [⟨.GSK_PATH_MOVE, 0⟩]
      points := b.points ++ [b.current_point] }

/-- gsk_path_builder_append_current (gskpathbuilder.c:164-176): ensure a
contour is active, append the op encoded at index `points->len - 1`, append
the points, and make the last appended point current. -/
def gsk_path_builder_append_current {α : Type} (b : GskPathBuilder α)
    (op : GskPathOperation) (pts : List (graphene_point_t α)) :
    GskPathBuilder α :=
  let b := gsk_path_builder_ensure_current b
  { b with
    ops := b.ops ++ [⟨op, b.points.length - 1⟩]
    points := b.points ++ pts
    current_point := pts.getLastD b.current_point }

/-- gsk_path_builder_end_current (gskpathbuilder.c:178-198): if a contour is
active, freeze its buffers into a GskContour and record it, resetting the
buffers.  The C clears the buffers and then calls add_contour, whose own
end_current is a no-op at that point, so the net effect is a prepend. -/
def gsk_path_builder_end_current {α : Type} (b : GskPathBuilder α) :
    GskPathBuilder α :=
  if b.ops = [] then b
  else
    { b with
      contours := (⟨b.flags, b.points, b.ops⟩ : GskContour α) :: b.contours
      ops := []
      points := [] }

/-- gsk_path_builder_add_contour (gskpathbuilder.c:296-303): finalize the
active contour, then prepend the given contour to the recorded list. -/
def gsk_path_builder_add_contour {α : Type} (b : GskPathBuilder α)
    (contour : GskContour α) : GskPathBuilder α :=
  let b := gsk_path_builder_end_current b
  { b with contours := contour :: b.contours }

/-- gsk_path_builder_clear (gskpathbuilder.c:200-207): finalize the active
contour and drop the recorded contour list. -/
def gsk_path_builder_clear {α : Type} (b : GskPathBuilder α) :
    GskPathBuilder α :=
  let b := gsk_path_builder_end_current b
  { b with contours := [] }

/-- gsk_path_builder_to_path (gskpathbuilder.c:278-294): finalize the active
contour, reverse the recorded (prepend-ordered) contour list back into
insertion order, build the path, and clear the builder.  The embedding
returns the path together with the builder state left behind. -/
def gsk_path_builder_to_path {α : Type} (b : GskPathBuilder α) :
    GskPath α × GskPathBuilder α :=
  let b := gsk_path_builder_end_current b
  let b := { b with contours := b.contours.reverse }
  (⟨b.contours⟩, gsk_path_builder_clear b)

/-- gsk_path_builder_move_to (gskpathbuilder.c:510-522): finalize the active
contour, set the current point, and start a new contour there. -/
def gsk_path_builder_move_to {α : Type} (b : GskPathBuilder α) (x y : α) :
    GskPathBuilder α :=
  let b := gsk_path_builder_end_current b
  let b := { b with current_point := (⟨x, y⟩ : graphene_point_t α) }
  gsk_path_builder_ensure_current b

/-- gsk_path_builder_line_to (gskpathbuilder.c:560-577): skip the line if it
goes to the (exactly equal) current point; otherwise append a Line op with
one point. -/
def gsk_path_builder_line_to {α : Type} [DecidableEq α]
    (b : GskPathBuilder α) (x y : α) : GskPathBuilder α :=
  if b.current_point = (⟨x, y⟩ : graphene_point_t α) then b
  else
    gsk_path_builder_append_current b .GSK_PATH_LINE [⟨x, y⟩]

/-- gsk_path_builder_quad_to (gskpathbuilder.c:619-635): clear the FLAT flag,
then append a Quad op with two points.  Note the clear happens before
append_current, whose ensure_current re-assigns the flags when it has to
auto-start a contour. -/
def gsk_path_builder_quad_to {α : Type} (b : GskPathBuilder α)
    (x1 y1 x2 y2 : α) : GskPathBuilder α :=
  let b := { b with flags := { b.flags with flat := false } }
  gsk_path_builder_append_current b .GSK_PATH_QUAD [⟨x1, y1⟩, ⟨x2, y2⟩]

/-- gsk_path_builder_cubic_to (gskpathbuilder.c:688-707): clear the FLAT
flag, then append a Cubic op with three points. -/
def gsk_path_builder_cubic_to {α : Type} (b : GskPathBuilder α)
    (x1 y1 x2 y2 x3 y3 : α) : GskPathBuilder α :=
  let b := { b with flags := { b.flags with flat := false } }
  gsk_path_builder_append_current b .GSK_PATH_CUBIC
    [⟨x1, y1⟩, ⟨x2, y2⟩, ⟨x3, y3⟩]

/-- gsk_path_builder_close (gskpathbuilder.c:761-777): no-op with no active
contour; otherwise set the CLOSED flag, append a Close op carrying a copy of
the contour's start point (points[0]), and finalize the contour. -/
def gsk_path_builder_close {α : Type} (b : GskPathBuilder α) :
    GskPathBuilder α :=
  if b.ops = [] then b
  else
    let b := { b with flags := { b.flags with closed := true } }
    let b := gsk_path_builder_append_current b .GSK_PATH_CLOSE
      [b.points.headD b.current_point]
    gsk_path_builder_end_current b

/-- gsk_contour_dup as used by gsk_path_builder_add_path
(gskpathbuilder.c:348).  Modelled from the spec: duplicating an immutable
contour yields an equal contour (value semantics); gskcontour.c is not part
of the sources. -/
def gsk_contour_dup {α : Type} (c : GskContour α) : GskContour α := c

/-- gsk_path_builder_add_path (gskpathbuilder.c:337-350): add a duplicate of
every contour of the path, in order. -/
def gsk_path_builder_add_path {α : Type} (b : GskPathBuilder α)
    (p : GskPath α) : GskPathBuilder α :=
  p.contours.foldl
    (fun b c => gsk_path_builder_add_contour b (gsk_contour_dup c)) b

/-- gsk_path_builder_add_reverse_path (gskpathbuilder.c:361-374): add the
reverse of every contour of the path, iterating the contours from last to
first.  Contour reversal (gsk_contour_reverse) lives in gskcontour.c, which
is not part of the sources, so it is taken as a parameter. -/
def gsk_path_builder_add_reverse_path {α : Type}
    (gsk_contour_reverse : GskContour α → GskContour α)
    (b : GskPathBuilder α) (p : GskPath α) : GskPathBuilder α :=
  p.contours.reverse.foldl
    (fun b c => gsk_path_builder_add_contour b (gsk_contour_reverse c)) b

/-- gsk_contour_get_start_end as used by gsk_path_builder_add_rect
(gskpathbuilder.c:452).  Modelled from the spec: a contour "derives
start/end point" as the first and last stored point; gskcontour.c is not
part of the sources. -/
def gsk_contour_get_start_end {α : Type} [Zero α] (c : GskContour α) :
    graphene_point_t α × graphene_point_t α :=
  (c.points.headD ⟨0, 0⟩, c.points.getLastD ⟨0, 0⟩)

/-- Scenario builder from the spec: move_to(0,0); line_to(10,0);
line_to(10,10); close(), over ℚ. -/
def scenarioQ : GskPathBuilder ℚ :=
  gsk_path_builder_close
    (gsk_path_builder_line_to
      (gsk_path_builder_line_to
        (gsk_path_builder_move_to (gsk_path_builder_new ℚ) 0 0) 10 0)
      10 10)

/-- Concrete one-op builder (an active contour holding just a Move at
(0,0)), used by witnesses. -/
def bMove00Q : GskPathBuilder ℚ :=
  gsk_path_builder_move_to (gsk_path_builder_new ℚ) 0 0

/-- Concrete contour ending at (5,5), used to refute C3. -/
def contour55Q : GskContour ℚ :=
  ⟨⟨true, false⟩, [⟨5, 5⟩], [⟨.GSK_PATH_MOVE, 0⟩]⟩

/-- Boolean test for the curve operation tags (Quad, Cubic). -/
def is_curve_op (o : gskpathop) : Bool :=
  o.op == .GSK_PATH_QUAD || o.op == .GSK_PATH_CUBIC

/-
Circle and elliptical-arc helpers over ℝ (gskpathbuilder.c:455-494 and
779-953).  The float math of the source is modelled with real numbers.
-/

noncomputable section

/-- GSK_PATH_TOLERANCE_DEFAULT.  Modelled from the spec: the default
flatness tolerance handed by add_circle to the arc decomposition;
gskpathprivate.h is not part of the sources and the value is only passed
through, never inspected here. -/
def GSK_PATH_TOLERANCE_DEFAULT : ℝ := 1 / 2

/-- Four points describing one cubic segment as handed to the decomposition
callback (graphene_point_t pts[4] in circle_contour_curve). -/
structure GskCurve4 (α : Type) where
  p0 : graphene_point_t α
  p1 : graphene_point_t α
  p2 : graphene_point_t α
  p3 : graphene_point_t α

/-- circle_contour_curve (gskpathbuilder.c:455-467): feed points 1..3 of
the 4-point cubic description to cubic_to (the callback's TRUE return
value just continues the decomposition). -/
def circle_contour_curve {α : Type} (b : GskPathBuilder α)
    (pts : GskCurve4 α) : GskPathBuilder α :=
  gsk_path_builder_cubic_to b pts.p1.x pts.p1.y pts.p2.x pts.p2.y
    pts.p3.x pts.p3.y

/-- gsk_path_builder_add_circle (gskpathbuilder.c:479-494): reject a
non-positive radius before any mutation (g_return_if_fail), else move_to
the point on the circle right of the center, feed every cubic segment of
the 0..2π arc decomposition to cubic_to, and close.
gsk_spline_decompose_arc lives in gskspline.c, which is not part of the
sources; modelled from the spec as a parameter: a deterministic function
of center, radius, tolerance, start angle and end angle yielding finitely
many cubic segments. -/
def gsk_path_builder_add_circle
    (gsk_spline_decompose_arc :
      graphene_point_t ℝ → ℝ → ℝ → ℝ → ℝ → List (GskCurve4 ℝ))
    (b : GskPathBuilder ℝ) (center : graphene_point_t ℝ) (radius : ℝ) :
    GskPathBuilder ℝ :=
  if ¬ radius > 0 then b
  else
    gsk_path_builder_close
      ((gsk_spline_decompose_arc center radius GSK_PATH_TOLERANCE_DEFAULT
          0 (2 * Real.pi)).foldl circle_contour_curve
        (gsk_path_builder_move_to b (center.x + radius) center.y))

/-- gsk_path_builder_add_circle over the extended reals.  The C radius is a
float, whose value range contains the non-finite value +∞, which ℝ cannot
represent; EReal models that range so the effect of the
g_return_if_fail (radius > 0) precondition on a non-finite radius is
statable.  Same line-for-line translation of gskpathbuilder.c:479-494 as
the ℝ version above. -/
def gsk_path_builder_add_circle_ereal
    (gsk_spline_decompose_arc :
      graphene_point_t EReal → EReal → EReal → EReal → EReal →
        List (GskCurve4 EReal))
    (b : GskPathBuilder EReal) (center : graphene_point_t EReal)
    (radius : EReal) : GskPathBuilder EReal :=
  if ¬ radius > 0 then b
  else
    gsk_path_builder_close
      ((gsk_spline_decompose_arc center radius
          ((GSK_PATH_TOLERANCE_DEFAULT : ℝ) : EReal) 0
          ((2 * Real.pi : ℝ) : EReal)).foldl circle_contour_curve
        (gsk_path_builder_move_to b (center.x + radius) center.y))

/-- CLAMP from glib: clamp v into [lo, hi]. -/
def CLAMP (v lo hi : ℝ) : ℝ :=
  if v > hi then hi else if v < lo then lo else v

/-- Tangent length for one arc segment of half-angle th_half
(gskpathbuilder.c:937): t = (8/3)·sin(th_half/2)²/sin(th_half). -/
def arc_t (th_half : ℝ) : ℝ :=
  8 / 3 * (Real.sin (th_half / 2) * Real.sin (th_half / 2)) /
    Real.sin th_half

/-- Segment count for an included angle (gskpathbuilder.c:931):
n_segs = ceil(|Δθ / (π/2 + 0.001)|). -/
def svg_arc_n_segs (delta_theta : ℝ) : ℕ :=
  ⌈|delta_theta / (Real.pi / 2 + 1 / 1000)|⌉₊

/-- Tangent-length formula in the spec's own words,
t = (4/3)·sin(Δ/4)²/sin(Δ/2) as a function of the segment angle Δ, kept
separate from arc_t (the code's formula) so the two can be compared. -/
def spec_arc_t (delta : ℝ) : ℝ :=
  4 / 3 * (Real.sin (delta / 4) * Real.sin (delta / 4)) /
    Real.sin (delta / 2)

/-- Arguments of gsk_path_builder_svg_arc_to after resolving the start
point (x1,y1) from the builder (gskpathbuilder.c:856-868). -/
structure SvgArcArgs where
  x1 : ℝ
  y1 : ℝ
  rx : ℝ
  ry : ℝ
  x_axis_rot : ℝ
  large_arc : Bool
  positive_sweep : Bool
  x : ℝ
  y : ℝ

namespace SvgArc

/-- phi = x_axis_rotation ⋅ π / 180 (gskpathbuilder.c:870). -/
def phi (a : SvgArcArgs) : ℝ := a.x_axis_rot * Real.pi / 180

def sin_phi (a : SvgArcArgs) : ℝ := Real.sin (phi a)

def cos_phi (a : SvgArcArgs) : ℝ := Real.cos (phi a)

/-- rx = fabs (rx) (gskpathbuilder.c:873). -/
def rx_abs (a : SvgArcArgs) : ℝ := |a.rx|

def ry_abs (a : SvgArcArgs) : ℝ := |a.ry|

/-- mid_x = (x1 - x2) / 2 with x2 = x (gskpathbuilder.c:876). -/
def mid_x (a : SvgArcArgs) : ℝ := (a.x1 - a.x) / 2

def mid_y (a : SvgArcArgs) : ℝ := (a.y1 - a.y) / 2

/-- x1_ = cos_phi ⋅ mid_x + sin_phi ⋅ mid_y (gskpathbuilder.c:879). -/
def x1p (a : SvgArcArgs) : ℝ := cos_phi a * mid_x a + sin_phi a * mid_y a

def y1p (a : SvgArcArgs) : ℝ := - sin_phi a * mid_x a + cos_phi a * mid_y a

/-- lambda = (x1_/rx)² + (y1_/ry)² (gskpathbuilder.c:882). -/
def lambda (a : SvgArcArgs) : ℝ :=
  x1p a / rx_abs a * (x1p a / rx_abs a) + y1p a / ry_abs a * (y1p a / ry_abs a)

/-- rx scaled up by sqrt(lambda) when the chord is infeasible
(gskpathbuilder.c:883-888). -/
def rxs (a : SvgArcArgs) : ℝ :=
  if lambda a > 1 then rx_abs a * Real.sqrt (lambda a) else rx_abs a

def rys (a : SvgArcArgs) : ℝ :=
  if lambda a > 1 then ry_abs a * Real.sqrt (lambda a) else ry_abs a

/-- d = (rx·y1_)² + (ry·x1_)² (gskpathbuilder.c:890), the chord
discriminant whose vanishing aborts the arc. -/
def d (a : SvgArcArgs) : ℝ :=
  rxs a * y1p a * (rxs a * y1p a) + rys a * x1p a * (rys a * x1p a)

/-- k = ±sqrt(|(rx·ry)²/d - 1|), negated when positive_sweep == large_arc
(gskpathbuilder.c:894-896). -/
def k (a : SvgArcArgs) : ℝ :=
  if a.positive_sweep = a.large_arc then
    - Real.sqrt |rxs a * rys a * (rxs a * rys a) / d a - 1|
  else
    Real.sqrt |rxs a * rys a * (rxs a * rys a) / d a - 1|

def cxp (a : SvgArcArgs) : ℝ := k a * rxs a * y1p a / rys a

def cyp (a : SvgArcArgs) : ℝ := - k a * rys a * x1p a / rxs a

/-- Ellipse center (gskpathbuilder.c:901-902). -/
def cx (a : SvgArcArgs) : ℝ :=
  cos_phi a * cxp a - sin_phi a * cyp a + (a.x1 + a.x) / 2

def cy (a : SvgArcArgs) : ℝ :=
  sin_phi a * cxp a + cos_phi a * cyp a + (a.y1 + a.y) / 2

/-- Start direction vector (gskpathbuilder.c:904-905). -/
def ux (a : SvgArcArgs) : ℝ := (x1p a - cxp a) / rxs a

def uy (a : SvgArcArgs) : ℝ := (y1p a - cyp a) / rys a

/-- u_len = sqrt(ux² + uy²) (gskpathbuilder.c:906), whose vanishing aborts
the arc. -/
def u_len (a : SvgArcArgs) : ℝ := Real.sqrt (ux a * ux a + uy a * uy a)

/-- theta1 = ±acos(CLAMP(ux/u_len, -1, 1)) (gskpathbuilder.c:910-913). -/
def theta1 (a : SvgArcArgs) : ℝ :=
  if uy a < 0 then - Real.arccos (CLAMP (ux a / u_len a) (-1) 1)
  else Real.arccos (CLAMP (ux a / u_len a) (-1) 1)

/-- End direction vector (gskpathbuilder.c:915-916). -/
def vx (a : SvgArcArgs) : ℝ := (- x1p a - cxp a) / rxs a

def vy (a : SvgArcArgs) : ℝ := (- y1p a - cyp a) / rys a

/-- v_len = sqrt(vx² + vy²) (gskpathbuilder.c:917), whose vanishing aborts
the arc. -/
def v_len (a : SvgArcArgs) : ℝ := Real.sqrt (vx a * vx a + vy a * vy a)

/-- Signed included angle before the sweep correction
(gskpathbuilder.c:921-925). -/
def delta_raw (a : SvgArcArgs) : ℝ :=
  if ux a * vy a - uy a * vx a < 0 then
    - Real.arccos (CLAMP ((ux a * vx a + uy a * vy a) /
        (u_len a * v_len a)) (-1) 1)
  else
    Real.arccos (CLAMP ((ux a * vx a + uy a * vy a) /
        (u_len a * v_len a)) (-1) 1)

/-- Signed included angle after wrapping by ±2π according to the sweep
flag (gskpathbuilder.c:926-929). -/
def delta_theta (a : SvgArcArgs) : ℝ :=
  if a.positive_sweep = true ∧ delta_raw a < 0 then delta_raw a + 2 * Real.pi
  else if a.positive_sweep = false ∧ delta_raw a > 0 then
    delta_raw a - 2 * Real.pi
  else delta_raw a

def n_segs (a : SvgArcArgs) : ℕ := svg_arc_n_segs (delta_theta a)

/-- d_theta = delta_theta / n_segs (gskpathbuilder.c:932). -/
def d_theta (a : SvgArcArgs) : ℝ := delta_theta a / (n_segs a : ℝ)

/-- t = (8/3)·sin(th_half/2)²/sin(th_half) with th_half = d_theta/2
(gskpathbuilder.c:936-937). -/
def t (a : SvgArcArgs) : ℝ := arc_t (d_theta a / 2)

end SvgArc

/-- arc_segment (gskpathbuilder.c:779-809): compute the two control points
and the end point of one cubic segment in the rotated frame and emit them
through cubic_to. -/
def arc_segment (b : GskPathBuilder ℝ)
    (cx cy rx ry sin_phi cos_phi sin_th0 cos_th0 sin_th1 cos_th1 t : ℝ) :
    GskPathBuilder ℝ :=
  let x1 := rx * (cos_th0 - t * sin_th0)
  let y1 := ry * (sin_th0 + t * cos_th0)
  let x3 := rx * cos_th1
  let y3 := ry * sin_th1
  let x2 := x3 + rx * (t * sin_th1)
  let y2 := y3 + ry * (- t * cos_th1)
  gsk_path_builder_cubic_to b
    (cx + cos_phi * x1 - sin_phi * y1) (cy + sin_phi * x1 + cos_phi * y1)
    (cx + cos_phi * x2 - sin_phi * y2) (cy + sin_phi * x2 + cos_phi * y2)
    (cx + cos_phi * x3 - sin_phi * y3) (cy + sin_phi * x3 + cos_phi * y3)

/-- The emission loop of svg_arc_to (gskpathbuilder.c:939-952): starting at
angle th, emit the given number of segments, advancing the angle by
d_theta each time; sin_th0/cos_th0 are the cached values of the previous
iteration, i.e. the sine and cosine of the current angle. -/
def emit_segments (cx cy rx ry sin_phi cos_phi d_theta t : ℝ) :
    ℕ → ℝ → GskPathBuilder ℝ → GskPathBuilder ℝ
  | 0, _, b => b
  | n + 1, th, b =>
      emit_segments cx cy rx ry sin_phi cos_phi d_theta t n (th + d_theta)
        (arc_segment b cx cy rx ry sin_phi cos_phi
          (Real.sin th) (Real.cos th)
          (Real.sin (th + d_theta)) (Real.cos (th + d_theta)) t)

/-- Start-point selection of svg_arc_to (gskpathbuilder.c:856-866): the
last point of the in-progress point buffer, or (0,0) if it is empty. -/
def svg_arc_start (b : GskPathBuilder ℝ) : graphene_point_t ℝ :=
  b.points.getLastD ⟨0, 0⟩

/-- Packed arguments of svg_arc_to for a given builder. -/
def svg_arc_args (b : GskPathBuilder ℝ) (rx ry x_axis_rot : ℝ)
    (large_arc positive_sweep : Bool) (x y : ℝ) : SvgArcArgs :=
  ⟨(svg_arc_start b).x, (svg_arc_start b).y, rx, ry, x_axis_rot,
    large_arc, positive_sweep, x, y⟩

/-- Guarded body of svg_arc_to: abort silently when the chord discriminant
or either direction vector vanishes (gskpathbuilder.c:891-892, 907-908,
918-919), else run the emission loop. -/
def svg_arc_run (b : GskPathBuilder ℝ) (a : SvgArcArgs) :
    GskPathBuilder ℝ :=
  if SvgArc.d a = 0 then b
  else if SvgArc.u_len a = 0 then b
  else if SvgArc.v_len a = 0 then b
  else
    emit_segments (SvgArc.cx a) (SvgArc.cy a) (SvgArc.rxs a) (SvgArc.rys a)
      (SvgArc.sin_phi a) (SvgArc.cos_phi a) (SvgArc.d_theta a) (SvgArc.t a)
      (SvgArc.n_segs a) (SvgArc.theta1 a) b

/-- gsk_path_builder_svg_arc_to (gskpathbuilder.c:824-953). -/
def gsk_path_builder_svg_arc_to (b : GskPathBuilder ℝ)
    (rx ry x_axis_rot : ℝ) (large_arc positive_sweep : Bool) (x y : ℝ) :
    GskPathBuilder ℝ :=
  svg_arc_run b (svg_arc_args b rx ry x_axis_rot large_arc positive_sweep x y)

end

/-- Concrete builder over ℝ whose current point is (5,5) while its point
buffer is empty: the state right after move_to(5,5); close(). -/
def bClosed55R : GskPathBuilder ℝ :=
  gsk_path_builder_close (gsk_path_builder_move_to (gsk_path_builder_new ℝ) 5 5)

/-
Helper lemmas about the builder state machine, shared by the claim
theorems below.
-/

theorem end_current_current_point {α : Type} (b : GskPathBuilder α) :
    (gsk_path_builder_end_current b).current_point = b.current_point := by
  unfold gsk_path_builder_end_current
  split <;> rfl

theorem end_current_of_no_ops {α : Type} (b : GskPathBuilder α)
    (h : b.ops = []) : gsk_path_builder_end_current b = b := by
  unfold gsk_path_builder_end_current
  rw [if_pos h]

theorem end_current_ops_nil {α : Type} (b : GskPathBuilder α) :
    (gsk_path_builder_end_current b).ops = [] := by
  unfold gsk_path_builder_end_current
  split
  · assumption
  · rfl

theorem end_current_points_nil {α : Type} (b : GskPathBuilder α)
    (hb : b.ops = [] → b.points = []) :
    (gsk_path_builder_end_current b).points = [] := by
  unfold gsk_path_builder_end_current
  split
  · exact hb (by assumption)
  · rfl

theorem append_current_active {α : Type} (b : GskPathBuilder α)
    (op : GskPathOperation) (pts : List (graphene_point_t α))
    (h : b.ops ≠ []) :
    gsk_path_builder_append_current b op pts =
      { b with
        ops := b.ops ++ [⟨op, b.points.length - 1⟩]
        points := b.points ++ pts
        current_point := pts.getLastD b.current_point } := by
  unfold gsk_path_builder_append_current gsk_path_builder_ensure_current
  rw [if_pos h]

theorem close_active {α : Type} (b : GskPathBuilder α) (h : b.ops ≠ []) :
    gsk_path_builder_close b =
      { b with
        flags := ⟨b.flags.flat, true⟩
        current_point := b.points.headD b.current_point
        ops := []
        points := []
        contours :=
          (⟨⟨b.flags.flat, true⟩,
            b.points ++ [b.points.headD b.current_point],
            b.ops ++ [⟨.GSK_PATH_CLOSE, b.points.length - 1⟩]⟩ :
            GskContour α) :: b.contours } := by
  simp only [gsk_path_builder_close, gsk_path_builder_append_current,
    gsk_path_builder_ensure_current, gsk_path_builder_end_current]
  simp [h, List.getLastD]

theorem foldl_add_contour_current {α : Type}
    (f : GskContour α → GskContour α) :
    ∀ (l : List (GskContour α)) (b : GskPathBuilder α),
      (l.foldl (fun b c => gsk_path_builder_add_contour b (f c))
          b).current_point = b.current_point := by
  intro l
  induction l with
  | nil => intro b; rfl
  | cons c l ih =>
      intro b
      rw [List.foldl_cons, ih]
      show (gsk_path_builder_add_contour b (f c)).current_point =
        b.current_point
      unfold gsk_path_builder_add_contour
      exact end_current_current_point b

/-
Claim theorems.
-/

/-- C1 counterexample: the spec scenario move_to(0,0); line_to(10,0);
line_to(10,10); close() stores FOUR points — close() appends a copy of the
start point (gskpathbuilder.c:770-774) — and not the three points the claim
states. -/
theorem c1_scenario_counterexample :
    (gsk_path_builder_to_path scenarioQ).1.contours.map (fun c => c.points) =
      [[⟨0, 0⟩, ⟨10, 0⟩, ⟨10, 10⟩, ⟨0, 0⟩]] ∧
    ¬ (gsk_path_builder_to_path scenarioQ).1.contours.map
        (fun c => c.points) = [[⟨0, 0⟩, ⟨10, 0⟩, ⟨10, 10⟩]] := by
  decide

/-- C1 (amended): a Close operation appends ONE additional point — a copy of
the contour's own start point — to the point buffer, so the spec scenario
yields one closed contour whose stored point list is the four points
(0,0),(10,0),(10,10),(0,0) with ops Move,Line,Line,Close. -/
theorem c1_close_appends_start_copy :
    (∀ b : GskPathBuilder ℚ, b.ops ≠ [] →
      (gsk_path_builder_close b).contours =
        (⟨⟨b.flags.flat, true⟩,
          b.points ++ [b.points.headD b.current_point],
          b.ops ++ [⟨.GSK_PATH_CLOSE, b.points.length - 1⟩]⟩ :
          GskContour ℚ) :: b.contours) ∧
    (gsk_path_builder_to_path scenarioQ).1.contours =
      [⟨⟨true, true⟩, [⟨0, 0⟩, ⟨10, 0⟩, ⟨10, 10⟩, ⟨0, 0⟩],
        [⟨.GSK_PATH_MOVE, 0⟩, ⟨.GSK_PATH_LINE, 0⟩, ⟨.GSK_PATH_LINE, 1⟩,
         ⟨.GSK_PATH_CLOSE, 2⟩]⟩] := by
  constructor
  · intro b h
    rw [close_active b h]
  · decide

/-- Witness for C1 at the one-op builder holding a Move at (0,0). -/
theorem c1_witness :
    (gsk_path_builder_close bMove00Q).contours =
      (⟨⟨bMove00Q.flags.flat, true⟩,
        bMove00Q.points ++ [bMove00Q.points.headD bMove00Q.current_point],
        bMove00Q.ops ++ [⟨.GSK_PATH_CLOSE, bMove00Q.points.length - 1⟩]⟩ :
        GskContour ℚ) :: bMove00Q.contours :=
  c1_close_appends_start_copy.1 bMove00Q (by decide)

/-- C2 counterexample: a quad_to on a builder with no active contour
auto-starts the contour AFTER the flat flag was cleared, and
ensure_current re-assigns GSK_PATH_FLAT (gskpathbuilder.c:159,628), so the
finalized contour carries a Quad op yet is flagged flat — refuting
"flat iff no curve ops". -/
theorem c2_autostart_flat_counterexample :
    ¬ (∀ c ∈ (gsk_path_builder_to_path
          (gsk_path_builder_quad_to (gsk_path_builder_new ℚ)
            1 1 2 0)).1.contours,
        (c.flags.flat = true ↔
          c.ops.all (fun o => !is_curve_op o) = true)) := by
  decide

/-- C2 (amended): quad_to and cubic_to clear the flat flag when a contour is
active; when the call auto-starts a contour (no active contour),
ensure_current re-establishes the flat flag after the clear, so the
contour is marked flat despite the appended curve. -/
theorem c2_flat_flag_behavior {α : Type} (b : GskPathBuilder α)
    (x1 y1 x2 y2 x3 y3 : α) :
    (b.ops ≠ [] →
      (gsk_path_builder_quad_to b x1 y1 x2 y2).flags.flat = false ∧
      (gsk_path_builder_cubic_to b x1 y1 x2 y2 x3 y3).flags.flat = false) ∧
    (b.ops = [] →
      (gsk_path_builder_quad_to b x1 y1 x2 y2).flags.flat = true ∧
      (gsk_path_builder_cubic_to b x1 y1 x2 y2 x3 y3).flags.flat = true) := by
  constructor
  · intro h
    constructor <;>
      simp [gsk_path_builder_quad_to, gsk_path_builder_cubic_to,
        gsk_path_builder_append_current, gsk_path_builder_ensure_current, h]
  · intro h
    constructor <;>
      simp [gsk_path_builder_quad_to, gsk_path_builder_cubic_to,
        gsk_path_builder_append_current, gsk_path_builder_ensure_current, h]

/-- Witness for C2: a builder with an active contour and a fresh builder. -/
theorem c2_witness :
    ((gsk_path_builder_quad_to bMove00Q 1 1 2 0).flags.flat = false ∧
     (gsk_path_builder_cubic_to bMove00Q 1 1 2 0 3 1).flags.flat = false) ∧
    ((gsk_path_builder_quad_to (gsk_path_builder_new ℚ)
        1 1 2 0).flags.flat = true ∧
     (gsk_path_builder_cubic_to (gsk_path_builder_new ℚ)
        1 1 2 0 3 1).flags.flat = true) :=
  ⟨(c2_flat_flag_behavior bMove00Q 1 1 2 0 3 1).1 (by decide),
   (c2_flat_flag_behavior (gsk_path_builder_new ℚ) 1 1 2 0 3 1).2 rfl⟩

/-- C3 counterexample: adding a contour ending at (5,5) — directly or via
add_path — to a fresh builder leaves the current point at (0,0): neither
gsk_path_builder_add_contour nor gsk_path_builder_add_path updates the
current point (gskpathbuilder.c:296-303,337-350). -/
theorem c3_current_point_counterexample :
    (gsk_path_builder_add_contour (gsk_path_builder_new ℚ)
        contour55Q).current_point = ⟨0, 0⟩ ∧
    (gsk_path_builder_add_path (gsk_path_builder_new ℚ)
        ⟨[contour55Q]⟩).current_point = ⟨0, 0⟩ ∧
    (gsk_contour_get_start_end contour55Q).2 = ⟨5, 5⟩ ∧
    ((⟨0, 0⟩ : graphene_point_t ℚ) ≠ ⟨5, 5⟩) := by
  decide

/-- C3 (amended): add_contour, add_path and add_reverse_path all leave the
builder's current point unchanged; only add_rect separately updates it. -/
theorem c3_current_point_preserved {α : Type} (b : GskPathBuilder α)
    (c : GskContour α) (p : GskPath α)
    (rev : GskContour α → GskContour α) :
    (gsk_path_builder_add_contour b c).current_point = b.current_point ∧
    (gsk_path_builder_add_path b p).current_point = b.current_point ∧
    (gsk_path_builder_add_reverse_path rev b p).current_point =
      b.current_point := by
  refine ⟨?_, ?_, ?_⟩
  · show (gsk_path_builder_end_current b).current_point = b.current_point
    exact end_current_current_point b
  · exact foldl_add_contour_current gsk_contour_dup p.contours b
  · exact foldl_add_contour_current rev p.contours.reverse b

/-- C6: line_to to a target equal to the current point leaves the builder
entirely unchanged (gskpathbuilder.c:567-570 skips the line). -/
theorem c6_line_to_same_point_noop {α : Type} [DecidableEq α]
    (b : GskPathBuilder α) (x y : α)
    (h : b.current_point = (⟨x, y⟩ : graphene_point_t α)) :
    gsk_path_builder_line_to b x y = b := by
  unfold gsk_path_builder_line_to
  rw [if_pos h]

/-- Witness for C6 at a concrete builder with current point (3,4). -/
theorem c6_witness :
    gsk_path_builder_line_to
      (gsk_path_builder_move_to (gsk_path_builder_new ℚ) 3 4) 3 4 =
      gsk_path_builder_move_to (gsk_path_builder_new ℚ) 3 4 :=
  c6_line_to_same_point_noop _ 3 4 (by decide)

/-- C7: close() with no active contour leaves the builder unchanged, and
repeating it is an idempotent no-op (gskpathbuilder.c:766-767). -/
theorem c7_close_no_contour_noop {α : Type} (b : GskPathBuilder α)
    (h : b.ops = []) :
    gsk_path_builder_close b = b ∧
    gsk_path_builder_close (gsk_path_builder_close b) =
      gsk_path_builder_close b := by
  have h1 : gsk_path_builder_close b = b := by
    unfold gsk_path_builder_close
    rw [if_pos h]
  exact ⟨h1, by rw [h1]; exact h1⟩

/-- Witness for C7 at the fresh builder. -/
theorem c7_witness :
    gsk_path_builder_close (gsk_path_builder_new ℚ) =
      gsk_path_builder_new ℚ ∧
    gsk_path_builder_close (gsk_path_builder_close
      (gsk_path_builder_new ℚ)) =
      gsk_path_builder_close (gsk_path_builder_new ℚ) :=
  c7_close_no_contour_noop (gsk_path_builder_new ℚ) rfl

/-- C9: to_path finalizes the active contour, returns the recorded contours
in original insertion order (reversing the internal prepend order), and
leaves the builder with no recorded contours and empty operation and point
buffers.  The hypothesis is the builder representation invariant (empty op
buffer means empty point buffer), which every reachable state satisfies. -/
theorem c9_to_path_spec {α : Type} (b : GskPathBuilder α)
    (hb : b.ops = [] → b.points = []) :
    (gsk_path_builder_to_path b).1.contours =
      (gsk_path_builder_end_current b).contours.reverse ∧
    (gsk_path_builder_to_path b).2.contours = [] ∧
    (gsk_path_builder_to_path b).2.ops = [] ∧
    (gsk_path_builder_to_path b).2.points = [] := by
  refine ⟨rfl, rfl, ?_, ?_⟩
  · simp only [gsk_path_builder_to_path, gsk_path_builder_clear]
    exact end_current_ops_nil _
  · simp only [gsk_path_builder_to_path, gsk_path_builder_clear]
    rw [end_current_of_no_ops
      { gsk_path_builder_end_current b with
        contours := (gsk_path_builder_end_current b).contours.reverse }
      (end_current_ops_nil b)]
    exact end_current_points_nil b hb

/-
Helper lemmas for the arc and circle claims.
-/

theorem svg_arc_d_of_coincident (a : SvgArcArgs) (hx : a.x1 = a.x)
    (hy : a.y1 = a.y) : SvgArc.d a = 0 := by
  have hmx : SvgArc.mid_x a = 0 := by simp [SvgArc.mid_x, hx]
  have hmy : SvgArc.mid_y a = 0 := by simp [SvgArc.mid_y, hy]
  have hx1p : SvgArc.x1p a = 0 := by simp [SvgArc.x1p, hmx, hmy]
  have hy1p : SvgArc.y1p a = 0 := by simp [SvgArc.y1p, hmx, hmy]
  simp [SvgArc.d, hx1p, hy1p]

theorem svg_arc_run_degenerate (b : GskPathBuilder ℝ) (a : SvgArcArgs)
    (h : SvgArc.d a = 0 ∨ SvgArc.u_len a = 0 ∨ SvgArc.v_len a = 0) :
    svg_arc_run b a = b := by
  unfold svg_arc_run
  split_ifs with h1 h2 h3
  · rfl
  · rfl
  · rfl
  · tauto

theorem cubic_to_state {α : Type} (b : GskPathBuilder α)
    (x1 y1 x2 y2 x3 y3 : α) (h : b.ops ≠ []) :
    (gsk_path_builder_cubic_to b x1 y1 x2 y2 x3 y3).contours = b.contours ∧
    (gsk_path_builder_cubic_to b x1 y1 x2 y2 x3 y3).ops ≠ [] ∧
    (gsk_path_builder_cubic_to b x1 y1 x2 y2 x3 y3).flags.closed =
      b.flags.closed := by
  unfold gsk_path_builder_cubic_to gsk_path_builder_append_current
    gsk_path_builder_ensure_current
  simp [h]

theorem foldl_circle_state {α : Type} :
    ∀ (l : List (GskCurve4 α)) (b : GskPathBuilder α), b.ops ≠ [] →
      (l.foldl circle_contour_curve b).contours = b.contours ∧
      (l.foldl circle_contour_curve b).ops ≠ [] ∧
      (l.foldl circle_contour_curve b).flags.closed = b.flags.closed := by
  intro l
  induction l with
  | nil => intro b hb; exact ⟨rfl, hb, rfl⟩
  | cons s l ih =>
      intro b hb
      have hc := cubic_to_state b s.p1.x s.p1.y s.p2.x s.p2.y
        s.p3.x s.p3.y hb
      rw [List.foldl_cons]
      have hrest := ih (circle_contour_curve b s) hc.2.1
      refine ⟨?_, hrest.2.1, ?_⟩
      · rw [hrest.1]; exact hc.1
      · rw [hrest.2.2]; exact hc.2.2

theorem move_to_state {α : Type} (b : GskPathBuilder α) (x y : α)
    (hb : b.ops = []) :
    (gsk_path_builder_move_to b x y).contours = b.contours ∧
    (gsk_path_builder_move_to b x y).ops ≠ [] ∧
    (gsk_path_builder_move_to b x y).flags.closed = false := by
  unfold gsk_path_builder_move_to gsk_path_builder_ensure_current
  rw [end_current_of_no_ops b hb]
  simp [hb]

/-- C4 counterexample: at segment angle Δ = π the code's tangent length
arc_t(Δ/2) equals 4/3 while the spec's formula (4/3)·sin(Δ/4)²/sin(Δ/2)
gives 2/3; the spec formula also differs from (4/3)·tan(Δ/4) = 4/3 there,
so the claimed coefficient is wrong (the code uses 8/3 in the sine form). -/
theorem c4_tangent_constant_counterexample :
    arc_t (Real.pi / 2) ≠ spec_arc_t Real.pi ∧
    spec_arc_t Real.pi ≠ 4 / 3 * Real.tan (Real.pi / 4) := by
  have h1 : Real.pi / 2 / 2 = Real.pi / 4 := by ring
  have h2 : Real.sin (Real.pi / 4) * Real.sin (Real.pi / 4) = 1 / 2 := by
    rw [Real.sin_pi_div_four]
    rw [div_mul_div_comm, Real.mul_self_sqrt (by norm_num : (0:ℝ) ≤ 2)]
    norm_num
  constructor
  · unfold arc_t spec_arc_t
    rw [h1, h2, Real.sin_pi_div_two]
    norm_num
  · unfold spec_arc_t
    rw [h2, Real.sin_pi_div_two, Real.tan_pi_div_four]
    norm_num

/-- C4 (amended): the included angle Δθ is split into
n = ceil(|Δθ|/(π/2+0.001)) equal segments, so each segment angle Δθ/n has
magnitude at most π/2+0.001, and the tangent length the code computes for
segment angle Δ, arc_t(Δ/2) = (8/3)·sin(Δ/4)²/sin(Δ/2), is an equivalent
closed form of (4/3)·tan(Δ/4); the spec's sine-form coefficient 4/3 is
off by a factor of two. -/
theorem c4_arc_segmentation_and_tangent :
    (∀ dt : ℝ, svg_arc_n_segs dt = ⌈|dt| / (Real.pi / 2 + 1 / 1000)⌉₊) ∧
    (∀ dt : ℝ, dt ≠ 0 →
      |dt / (svg_arc_n_segs dt : ℝ)| ≤ Real.pi / 2 + 1 / 1000) ∧
    (∀ delta : ℝ, Real.sin (delta / 2) ≠ 0 →
      arc_t (delta / 2) = 4 / 3 * Real.tan (delta / 4)) := by
  have hc : (0:ℝ) < Real.pi / 2 + 1 / 1000 := by
    have := Real.pi_pos
    linarith
  have habs : ∀ dt : ℝ, |dt / (Real.pi / 2 + 1 / 1000)| =
      |dt| / (Real.pi / 2 + 1 / 1000) := by
    intro dt
    rw [abs_div, abs_of_pos hc]
  refine ⟨?_, ?_, ?_⟩
  · intro dt
    unfold svg_arc_n_segs
    rw [habs dt]
  · intro dt hdt
    have hn : 0 < svg_arc_n_segs dt := by
      unfold svg_arc_n_segs
      rw [Nat.ceil_pos, habs dt]
      exact div_pos (abs_pos.mpr hdt) hc
    have hle : |dt| / (Real.pi / 2 + 1 / 1000) ≤ (svg_arc_n_segs dt : ℝ) := by
      unfold svg_arc_n_segs
      rw [← habs dt]
      exact Nat.le_ceil _
    have hnR : (0:ℝ) < (svg_arc_n_segs dt : ℝ) := by exact_mod_cast hn
    rw [abs_div, abs_of_pos hnR, div_le_iff₀ hnR]
    rw [div_le_iff₀ hc] at hle
    rw [mul_comm]
    exact hle
  · intro delta hs
    have h24 : delta / 2 / 2 = delta / 4 := by ring
    have hsin2 : Real.sin (delta / 2) =
        2 * Real.sin (delta / 4) * Real.cos (delta / 4) := by
      have h := Real.sin_two_mul (delta / 4)
      rw [(by ring : 2 * (delta / 4) = delta / 2)] at h
      exact h
    have hcos : Real.cos (delta / 4) ≠ 0 := by
      intro h0
      rw [hsin2, h0] at hs
      simp at hs
    have hsin : Real.sin (delta / 4) ≠ 0 := by
      intro h0
      rw [hsin2, h0] at hs
      simp at hs
    unfold arc_t
    rw [h24, hsin2, Real.tan_eq_sin_div_cos]
    field_simp
    ring

/-- Witness for C4 at Δθ = Δ = π. -/
theorem c4_witness :
    svg_arc_n_segs Real.pi = ⌈|Real.pi| / (Real.pi / 2 + 1 / 1000)⌉₊ ∧
    |Real.pi / (svg_arc_n_segs Real.pi : ℝ)| ≤ Real.pi / 2 + 1 / 1000 ∧
    arc_t (Real.pi / 2) = 4 / 3 * Real.tan (Real.pi / 4) :=
  ⟨c4_arc_segmentation_and_tangent.1 Real.pi,
   c4_arc_segmentation_and_tangent.2.1 Real.pi Real.pi_ne_zero,
   c4_arc_segmentation_and_tangent.2.2 Real.pi
     (by rw [Real.sin_pi_div_two]; exact one_ne_zero)⟩

/-- C5: svg_arc_to on numerically degenerate input — vanishing chord
discriminant d (in particular a start point equal to the end point, which
forces d = 0) or a vanishing direction vector length — returns the builder
completely unchanged: no ops, no points, no state change
(gskpathbuilder.c:891-892, 907-908, 918-919 return before any mutation). -/
theorem c5_svg_arc_degenerate_noop (b : GskPathBuilder ℝ)
    (rx ry x_axis_rot : ℝ) (large_arc positive_sweep : Bool) (x y : ℝ)
    (h : SvgArc.d (svg_arc_args b rx ry x_axis_rot large_arc
          positive_sweep x y) = 0 ∨
        SvgArc.u_len (svg_arc_args b rx ry x_axis_rot large_arc
          positive_sweep x y) = 0 ∨
        SvgArc.v_len (svg_arc_args b rx ry x_axis_rot large_arc
          positive_sweep x y) = 0 ∨
        svg_arc_start b = ⟨x, y⟩) :
    gsk_path_builder_svg_arc_to b rx ry x_axis_rot large_arc
      positive_sweep x y = b := by
  unfold gsk_path_builder_svg_arc_to
  rcases h with h | h | h | h
  · exact svg_arc_run_degenerate _ _ (Or.inl h)
  · exact svg_arc_run_degenerate _ _ (Or.inr (Or.inl h))
  · exact svg_arc_run_degenerate _ _ (Or.inr (Or.inr h))
  · refine svg_arc_run_degenerate _ _ (Or.inl ?_)
    apply svg_arc_d_of_coincident
    · show (svg_arc_start b).x = x
      rw [h]
    · show (svg_arc_start b).y = y
      rw [h]

/-- Witness for C5: an arc whose end point coincides with the start point
on a fresh builder. -/
theorem c5_witness :
    gsk_path_builder_svg_arc_to (gsk_path_builder_new ℝ)
      1 1 0 false false 0 0 = gsk_path_builder_new ℝ :=
  c5_svg_arc_degenerate_noop (gsk_path_builder_new ℝ) 1 1 0 false false 0 0
    (Or.inr (Or.inr (Or.inr rfl)))

/-- C8 counterexample: the claim's non-finite clause is false of the code.
Over the extended reals (modelling the float range of the C radius), the
non-finite radius +∞ passes the g_return_if_fail (radius > 0) check
(gskpathbuilder.c:486) — it is NOT rejected — and the builder IS mutated:
the call is not equal to the unchanged builder. -/
theorem c8_nonfinite_counterexample :
    ((⊤ : EReal) > 0) ∧
    gsk_path_builder_add_circle_ereal (fun _ _ _ _ _ => [])
        (gsk_path_builder_new EReal) ⟨0, 0⟩ ⊤ ≠
      gsk_path_builder_new EReal := by
  refine ⟨EReal.zero_lt_top, ?_⟩
  have heq : gsk_path_builder_add_circle_ereal (fun _ _ _ _ _ => [])
      (gsk_path_builder_new EReal) ⟨0, 0⟩ ⊤ =
      gsk_path_builder_close
        (gsk_path_builder_move_to (gsk_path_builder_new EReal)
          ((⟨0, 0⟩ : graphene_point_t EReal).x + ⊤)
          (⟨0, 0⟩ : graphene_point_t EReal).y) := by
    unfold gsk_path_builder_add_circle_ereal
    rw [if_neg (not_not_intro EReal.zero_lt_top)]
    rfl
  rw [heq]
  intro hc
  have hm := move_to_state (gsk_path_builder_new EReal)
    ((⟨0, 0⟩ : graphene_point_t EReal).x + ⊤)
    (⟨0, 0⟩ : graphene_point_t EReal).y rfl
  have hcl := close_active _ hm.2.1
  have hcon : (gsk_path_builder_close
      (gsk_path_builder_move_to (gsk_path_builder_new EReal)
        ((⟨0, 0⟩ : graphene_point_t EReal).x + ⊤)
        (⟨0, 0⟩ : graphene_point_t EReal).y)).contours = [] := by
    rw [hc]
    rfl
  rw [hcl] at hcon
  exact List.cons_ne_nil _ _ hcon

/-- C8 (amended): add_circle with positive radius performs exactly
move_to(center.x + radius, center.y), then one cubic_to per segment of the
0..2π arc decomposition at the default tolerance, then close(), recording
exactly one new closed contour; a non-positive radius is rejected by the
g_return_if_fail (radius > 0) precondition before any mutation; but a
non-finite radius is not necessarily rejected: over the float-range model
the radius +∞ satisfies radius > 0, so the check passes and the call
proceeds to mutate the builder.  The decomposition utility is external
(gskspline.c is not in the sources), so the statement holds for every
decomposition function. -/
theorem c8_add_circle_spec
    (dec : graphene_point_t ℝ → ℝ → ℝ → ℝ → ℝ → List (GskCurve4 ℝ))
    (b : GskPathBuilder ℝ) (center : graphene_point_t ℝ) (radius : ℝ) :
    (0 < radius → b.ops = [] →
      gsk_path_builder_add_circle dec b center radius =
        gsk_path_builder_close
          ((dec center radius GSK_PATH_TOLERANCE_DEFAULT 0
              (2 * Real.pi)).foldl circle_contour_curve
            (gsk_path_builder_move_to b (center.x + radius) center.y)) ∧
      ∃ c : GskContour ℝ,
        (gsk_path_builder_add_circle dec b center radius).contours =
          c :: b.contours ∧
        c.flags.closed = true ∧
        (gsk_path_builder_add_circle dec b center radius).ops = []) ∧
    (¬ 0 < radius →
      gsk_path_builder_add_circle dec b center radius = b) ∧
    (∀ (decE : graphene_point_t EReal → EReal → EReal → EReal → EReal →
          List (GskCurve4 EReal)) (bE : GskPathBuilder EReal)
        (centerE : graphene_point_t EReal),
      gsk_path_builder_add_circle_ereal decE bE centerE ⊤ =
        gsk_path_builder_close
          ((decE centerE ⊤ ((GSK_PATH_TOLERANCE_DEFAULT : ℝ) : EReal) 0
              ((2 * Real.pi : ℝ) : EReal)).foldl circle_contour_curve
            (gsk_path_builder_move_to bE (centerE.x + ⊤) centerE.y))) := by
  refine ⟨?_, ?_, ?_⟩
  · intro hr hb
    have heq : gsk_path_builder_add_circle dec b center radius =
        gsk_path_builder_close
          ((dec center radius GSK_PATH_TOLERANCE_DEFAULT 0
              (2 * Real.pi)).foldl circle_contour_curve
            (gsk_path_builder_move_to b (center.x + radius) center.y)) := by
      unfold gsk_path_builder_add_circle
      rw [if_neg (not_not_intro hr)]
    refine ⟨heq, ?_⟩
    have hm := move_to_state b (center.x + radius) center.y hb
    have hf := foldl_circle_state
      (dec center radius GSK_PATH_TOLERANCE_DEFAULT 0 (2 * Real.pi)) _
      hm.2.1
    set b2 := (dec center radius GSK_PATH_TOLERANCE_DEFAULT 0
        (2 * Real.pi)).foldl circle_contour_curve
      (gsk_path_builder_move_to b (center.x + radius) center.y) with hb2
    have hcl := close_active b2 hf.2.1
    have hcc : (gsk_path_builder_close b2).contours =
        (⟨⟨b2.flags.flat, true⟩,
          b2.points ++ [b2.points.headD b2.current_point],
          b2.ops ++ [⟨.GSK_PATH_CLOSE, b2.points.length - 1⟩]⟩ :
          GskContour ℝ) :: b2.contours := by
      rw [hcl]
    have hco : (gsk_path_builder_close b2).ops = [] := by
      rw [hcl]
    refine ⟨⟨⟨b2.flags.flat, true⟩,
        b2.points ++ [b2.points.headD b2.current_point],
        b2.ops ++ [⟨.GSK_PATH_CLOSE, b2.points.length - 1⟩]⟩, ?_, rfl, ?_⟩
    · rw [heq, hcc, hf.1, hm.1]
    · rw [heq, hco]
  · intro hr
    unfold gsk_path_builder_add_circle
    rw [if_pos hr]
  · intro decE bE centerE
    unfold gsk_path_builder_add_circle_ereal
    rw [if_neg (not_not_intro EReal.zero_lt_top)]

/-- Witness for C8: the trivial decomposition on a fresh builder, with
radius 1 (accepted) and radius 0 (rejected). -/
theorem c8_witness :
    (∃ c : GskContour ℝ,
      (gsk_path_builder_add_circle (fun _ _ _ _ _ => [])
          (gsk_path_builder_new ℝ) ⟨0, 0⟩ 1).contours =
        c :: (gsk_path_builder_new ℝ).contours ∧
      c.flags.closed = true ∧
      (gsk_path_builder_add_circle (fun _ _ _ _ _ => [])
          (gsk_path_builder_new ℝ) ⟨0, 0⟩ 1).ops = []) ∧
    gsk_path_builder_add_circle (fun _ _ _ _ _ => [])
        (gsk_path_builder_new ℝ) ⟨0, 0⟩ 0 = gsk_path_builder_new ℝ :=
  ⟨((c8_add_circle_spec (fun _ _ _ _ _ => []) (gsk_path_builder_new ℝ)
      ⟨0, 0⟩ 1).1 (by norm_num) rfl).2,
   (c8_add_circle_spec (fun _ _ _ _ _ => []) (gsk_path_builder_new ℝ)
      ⟨0, 0⟩ 0).2.1 (by norm_num)⟩

/-- C10: svg_arc_to takes its start point from the last point of the
in-progress point buffer; whenever the point buffer is empty it uses (0,0)
as the arc's start point — regardless of the builder's current point,
which the start-point selection never reads (gskpathbuilder.c:856-866). -/
theorem c10_svg_arc_start_selection (b : GskPathBuilder ℝ)
    (rx ry x_axis_rot : ℝ) (large_arc positive_sweep : Bool) (x y : ℝ)
    (h : b.points = []) :
    svg_arc_start b = ⟨0, 0⟩ ∧
    gsk_path_builder_svg_arc_to b rx ry x_axis_rot large_arc
        positive_sweep x y =
      svg_arc_run b
        ⟨0, 0, rx, ry, x_axis_rot, large_arc, positive_sweep, x, y⟩ := by
  have hs : svg_arc_start b = ⟨0, 0⟩ := by
    unfold svg_arc_start
    rw [h]
    rfl
  refine ⟨hs, ?_⟩
  unfold gsk_path_builder_svg_arc_to svg_arc_args
  rw [hs]

/-- Witness for C10: right after move_to(5,5); close() the current point
is (5,5) but the point buffer is empty, so the arc start is (0,0). -/
theorem c10_witness :
    bClosed55R.current_point = ⟨5, 5⟩ ∧
    (svg_arc_start bClosed55R = ⟨0, 0⟩ ∧
     gsk_path_builder_svg_arc_to bClosed55R 1 1 0 false false 3 4 =
       svg_arc_run bClosed55R ⟨0, 0, 1, 1, 0, false, false, 3, 4⟩) :=
  ⟨rfl, c10_svg_arc_start_selection bClosed55R 1 1 0 false false 3 4 rfl⟩

/-- Witness for C9 at the spec scenario builder. -/
theorem c9_witness :
    (gsk_path_builder_to_path scenarioQ).1.contours =
      (gsk_path_builder_end_current scenarioQ).contours.reverse ∧
    (gsk_path_builder_to_path scenarioQ).2.contours = [] ∧
    (gsk_path_builder_to_path scenarioQ).2.ops = [] ∧
    (gsk_path_builder_to_path scenarioQ).2.points = [] :=
  c9_to_path_spec scenarioQ (by decide)
